import Mathlib

/-!
Shallow embedding of `pkg/security/auth.go` (cockroach security package):
identity extraction from a TLS handshake, certificate- and password-based
authorization hooks, and the proto-request adapter, together with theorems
settling the specification claims about them.
-/

namespace CockroachSecurity

/-- `NodeUser` is used by nodes for intra-cluster traffic. -/
def NodeUser : String := "node"

/-- `RootUser` is the default cluster administrator. -/
def RootUser : String := "root"

/-- A peer certificate, reduced to the one field the code reads:
`Subject.CommonName`. -/
structure Certificate where
  commonName : String
  deriving DecidableEq

/-- The part of Go's `tls.ConnectionState` that `GetCertificateUser` reads:
the presented peer certificates and the verified chains. -/
structure ConnectionState where
  peerCertificates : List Certificate
  verifiedChains : List (List Certificate)
  deriving DecidableEq

/-- A `proto.Message` as the adapter sees it: either it implements
`RequestWithUser` (exposing a claimed username via `GetUser`) or it does
not; `descr` stands for the request's formatted representation. -/
inductive ProtoMessage where
  | withUser (user : String)
  | other (descr : String)
  deriving DecidableEq

/-- The Go type assertion `request.(RequestWithUser)` followed by
`GetUser()`: `some u` when the request exposes a claimed username. -/
def getRequestUser : ProtoMessage → Option String
  | ProtoMessage.withUser u => some u
  | ProtoMessage.other _ => none

/-- The distinct error outcomes produced in `auth.go` (each constructor is
one `errors.Errorf`/`errors.New` site, carrying the formatted data). -/
inductive AuthError where
  /-- "request is not using TLS" -/
  | noTLS
  /-- "no client certificates in request" -/
  | noPeerCertificate
  /-- "client cerficates not verified" -/
  | unverifiedCertificate
  /-- "user is missing" -/
  | missingUser
  /-- "user %s is not allowed" -/
  | nodeOnlyViolation (user : String)
  /-- "requested user is %s, but certificate is for %s" -/
  | identityMismatch (requested : String) (certUser : String)
  /-- "password authentication is only available for client connections" -/
  | clientOnly
  /-- "user root must authenticate using a client certificate" -/
  | rootRequiresCertificate
  /-- "invalid password" -/
  | invalidCredentials
  /-- "unknown request type: %T" -/
  | unsupportedRequestType
  /-- "%s error in request: %s" — the adapter re-wrapping an inner failure
  together with the offending request. -/
  | requestError (inner : AuthError) (request : ProtoMessage)
  deriving DecidableEq

/-- `UserAuthHook` authenticates a user from their username and whether the
connection originates from a client (`func(string, bool) error`; `.ok ()`
models a `nil` error). -/
def UserAuthHook : Type := String → Bool → Except AuthError Unit

/-- `GetCertificateUser` extracts the username from a client certificate.
A `nil` `*tls.ConnectionState` is `none`. -/
def GetCertificateUser (tlsState : Option ConnectionState) : Except AuthError String :=
  match tlsState with
  | none => Except.error AuthError.noTLS
  | some s =>
    match s.peerCertificates with
    | [] => Except.error AuthError.noPeerCertificate
    | c :: _ =>
      if s.verifiedChains.length ≠ s.peerCertificates.length then
        Except.error AuthError.unverifiedCertificate
      else
        Except.ok c.commonName

/-- The closure returned by `UserAuthCertHook`, closed over the security
mode and the certificate user resolved at build time. -/
def certHookFn (insecureMode : Bool) (certUser : String) : UserAuthHook :=
  fun requestedUser clientConnection =>
    if requestedUser.length = 0 then
      Except.error AuthError.missingUser
    else if ¬clientConnection ∧ requestedUser ≠ NodeUser then
      Except.error (AuthError.nodeOnlyViolation requestedUser)
    else if insecureMode then
      Except.ok ()
    else if ¬(certUser = NodeUser ∨ certUser = requestedUser) then
      Except.error (AuthError.identityMismatch requestedUser certUser)
    else
      Except.ok ()

/-- `UserAuthCertHook` builds an authentication hook from the security mode
and the client certificate; in secure mode the certificate user is resolved
first and any extraction failure is the build error. -/
def UserAuthCertHook (insecureMode : Bool) (tlsState : Option ConnectionState) :
    Except AuthError UserAuthHook :=
  match (if insecureMode then Except.ok "" else GetCertificateUser tlsState) with
  | Except.error e => Except.error e
  | Except.ok certUser => Except.ok (certHookFn insecureMode certUser)

/-- `UserAuthPasswordHook` builds an authentication hook from the security
mode, the supplied password and the stored hash.  `compareHashAndPassword`
abstracts the external credential-comparison primitive defined outside this
file (`true` models a `nil` comparison error, i.e. a match). -/
def UserAuthPasswordHook (compareHashAndPassword : List Nat → String → Bool)
    (insecureMode : Bool) (password : String) (hashedPassword : List Nat) : UserAuthHook :=
  fun requestedUser clientConnection =>
    if requestedUser.length = 0 then
      Except.error AuthError.missingUser
    else if ¬clientConnection then
      Except.error AuthError.clientOnly
    else if insecureMode then
      Except.ok ()
    else if requestedUser = RootUser then
      Except.error AuthError.rootRequiresCertificate
    else if password.length = 0 ∨ compareHashAndPassword hashedPassword password = false then
      Except.error AuthError.invalidCredentials
    else
      Except.ok ()

/-- The closure returned by `ProtoAuthHook`, closed over the inner
`UserAuthHook`. -/
def protoHookFn (userHook : UserAuthHook) : ProtoMessage → Bool → Except AuthError Unit :=
  fun request clientConnection =>
    match getRequestUser request with
    | none => Except.error AuthError.unsupportedRequestType
    | some u =>
      match userHook u clientConnection with
      | Except.error e => Except.error (AuthError.requestError e request)
      | Except.ok _ => Except.ok ()

/-- `ProtoAuthHook` builds an authentication hook over proto messages from
the security mode and the client certificate. -/
def ProtoAuthHook (insecureMode : Bool) (tlsState : Option ConnectionState) :
    Except AuthError (ProtoMessage → Bool → Except AuthError Unit) :=
  match UserAuthCertHook insecureMode tlsState with
  | Except.error e => Except.error e
  | Except.ok userHook => Except.ok (protoHookFn userHook)

/-! ### Helper lemmas shared across the claim theorems -/

/-- In secure mode a successful identity extraction makes the build succeed
with the closure over that identity. -/
lemma userAuthCertHook_secure_ok {tls : Option ConnectionState} {u : String}
    (hU : GetCertificateUser tls = Except.ok u) :
    UserAuthCertHook false tls = Except.ok (certHookFn false u) := by
  show (match GetCertificateUser tls with
    | Except.error e => Except.error e
    | Except.ok certUser => Except.ok (certHookFn false certUser)) = _
  rw [hU]

/-- In secure mode a failed identity extraction is the build error. -/
lemma userAuthCertHook_secure_error {tls : Option ConnectionState} {e : AuthError}
    (hU : GetCertificateUser tls = Except.error e) :
    UserAuthCertHook false tls = Except.error e := by
  show (match GetCertificateUser tls with
    | Except.error e => Except.error e
    | Except.ok certUser => Except.ok (certHookFn false certUser)) = _
  rw [hU]

/-- In insecure mode the build always succeeds with the empty identity. -/
lemma userAuthCertHook_insecure (tls : Option ConnectionState) :
    UserAuthCertHook true tls = Except.ok (certHookFn true "") := rfl

/-- The secure-mode certificate closure over a non-empty, non-node identity
`U` succeeds exactly on `(U, client)`. -/
lemma certHookFn_secure_ok_iff (U claimed : String) (client : Bool)
    (hne : U ≠ NodeUser) (hlen : U.length ≠ 0) :
    certHookFn false U claimed client = Except.ok () ↔ (claimed = U ∧ client = true) := by
  by_cases h0 : claimed.length = 0
  · simp only [certHookFn, h0, if_pos]
    constructor
    · intro h; exact Except.noConfusion h
    · intro hc; exact absurd (hc.1 ▸ h0) hlen
  · cases client
    · by_cases hnode : claimed = NodeUser
      · subst hnode
        simp [certHookFn, h0, hne]
      · simp [certHookFn, h0, hnode]
    · by_cases heq : U = claimed
      · subst heq
        simp [certHookFn, h0]
      · simp only [certHookFn, h0, if_neg, hne, heq]
        constructor
        · intro h
          simp [h0, hne, heq] at h
        · intro hc
          exact absurd hc.1.symm heq

/-- The secure-mode certificate closure over the node identity accepts any
non-empty username on a client connection. -/
lemma certHookFn_node_client (claimed : String) (h : claimed.length ≠ 0) :
    certHookFn false NodeUser claimed true = Except.ok () := by
  simp [certHookFn, h]

/-- The secure-mode certificate closure over the node identity accepts
exactly the node username on a non-client connection. -/
lemma certHookFn_node_nonclient (claimed : String) :
    certHookFn false NodeUser claimed false = Except.ok () ↔ claimed = NodeUser := by
  by_cases hnode : claimed = NodeUser
  · subst hnode
    exact iff_of_true rfl rfl
  · refine iff_of_false ?_ hnode
    by_cases h0 : claimed.length = 0
    · simp [certHookFn, h0]
    · simp [certHookFn, h0, hnode]

/-! ### Claim theorems -/

/-- C4: `GetCertificateUser` fails with `NoTLS` on absent handshake
evidence, with `NoPeerCertificate` on zero presented certificates, with
`UnverifiedCertificate` when the verified-chain count differs from the
presented-certificate count, and otherwise succeeds with the common name of
the first presented certificate. -/
theorem getCertificateUser_cases :
    GetCertificateUser none = Except.error AuthError.noTLS ∧
    (∀ chains : List (List Certificate),
      GetCertificateUser (some ⟨[], chains⟩) = Except.error AuthError.noPeerCertificate) ∧
    (∀ (certs : List Certificate) (chains : List (List Certificate)),
      certs ≠ [] → chains.length ≠ certs.length →
      GetCertificateUser (some ⟨certs, chains⟩) = Except.error AuthError.unverifiedCertificate) ∧
    (∀ (c : Certificate) (rest : List Certificate) (chains : List (List Certificate)),
      chains.length = (c :: rest).length →
      GetCertificateUser (some ⟨c :: rest, chains⟩) = Except.ok c.commonName) := by
  refine ⟨rfl, fun chains => rfl, ?_, ?_⟩
  · intro certs chains hcerts hlen
    match certs with
    | [] => exact absurd rfl hcerts
    | c :: rest =>
      show (if chains.length ≠ (c :: rest).length then
          Except.error AuthError.unverifiedCertificate
        else Except.ok c.commonName) = _
      rw [if_pos hlen]
  · intro c rest chains hlen
    show (if chains.length ≠ (c :: rest).length then
        Except.error AuthError.unverifiedCertificate
      else Except.ok c.commonName) = _
    rw [if_neg (not_not_intro hlen)]

/-- C4 witness: concrete instances of every case, including the 2
presented certificates / 1 verified chain scenario. -/
theorem getCertificateUser_cases_witness :
    GetCertificateUser none = Except.error AuthError.noTLS ∧
    GetCertificateUser (some ⟨[], []⟩) = Except.error AuthError.noPeerCertificate ∧
    GetCertificateUser (some ⟨[⟨"a"⟩, ⟨"b"⟩], [[⟨"a"⟩]]⟩)
      = Except.error AuthError.unverifiedCertificate ∧
    GetCertificateUser (some ⟨[⟨"alice"⟩], [[⟨"alice"⟩]]⟩) = Except.ok "alice" :=
  ⟨getCertificateUser_cases.1,
   getCertificateUser_cases.2.1 [],
   getCertificateUser_cases.2.2.1 [⟨"a"⟩, ⟨"b"⟩] [[⟨"a"⟩]] (by decide) (by decide),
   getCertificateUser_cases.2.2.2 ⟨"alice"⟩ [] [[⟨"alice"⟩]] rfl⟩

/-- C10: with zero presented certificates `GetCertificateUser` fails with
`NoPeerCertificate`, not `UnverifiedCertificate` and not success, even when
the verified-chain count (0) equals the certificate count (0): the
empty-certificate check precedes the chain-count comparison. -/
theorem getCertificateUser_empty_priority (chains : List (List Certificate))
    (_hcount : chains.length = ([] : List Certificate).length) :
    GetCertificateUser (some ⟨[], chains⟩) = Except.error AuthError.noPeerCertificate ∧
    GetCertificateUser (some ⟨[], chains⟩) ≠ Except.error AuthError.unverifiedCertificate ∧
    ∀ u, GetCertificateUser (some ⟨[], chains⟩) ≠ Except.ok u := by
  refine ⟨rfl, ?_, ?_⟩
  · intro h
    exact AuthError.noConfusion (Except.error.inj h)
  · intro u h
    exact Except.noConfusion h

/-- C10 witness: the zero-certificate, zero-chain handshake. -/
theorem getCertificateUser_empty_priority_witness :
    GetCertificateUser (some ⟨[], []⟩) = Except.error AuthError.noPeerCertificate ∧
    GetCertificateUser (some ⟨[], []⟩) ≠ Except.error AuthError.unverifiedCertificate ∧
    ∀ u, GetCertificateUser (some ⟨[], []⟩) ≠ Except.ok u :=
  getCertificateUser_empty_priority [] rfl

/-- C1 counterexample: in insecure mode the password hook accepts the root
user (the insecure-mode early success precedes the root check), so claiming
`root` does not fail with `RootRequiresCertificate` in every mode. -/
theorem userAuthPasswordHook_root_insecure_counterexample :
    UserAuthPasswordHook (fun _ _ => true) true "pw" [1] "root" true = Except.ok () ∧
    (Except.ok () : Except AuthError Unit)
      ≠ Except.error AuthError.rootRequiresCertificate :=
  ⟨rfl, fun h => Except.noConfusion h⟩

/-- C1 amended: in secure mode, for every password, stored hash and
comparison primitive, claiming `root` on a client connection fails with
`RootRequiresCertificate` even when the password matches; in insecure mode
the same invocation succeeds (the insecure-mode check precedes the root
check). -/
theorem userAuthPasswordHook_root (cmp : List Nat → String → Bool)
    (password : String) (hash : List Nat) :
    UserAuthPasswordHook cmp false password hash "root" true
      = Except.error AuthError.rootRequiresCertificate ∧
    UserAuthPasswordHook cmp true password hash "root" true = Except.ok () :=
  ⟨rfl, rfl⟩

/-- C6 counterexample: with an empty claimed username the password hook on
a non-client connection fails with `MissingUser`, not `ClientOnly` (the
empty-username check comes first). -/
theorem userAuthPasswordHook_clientOnly_counterexample :
    UserAuthPasswordHook (fun _ _ => true) false "pw" [1] "" false
      = Except.error AuthError.missingUser ∧
    AuthError.missingUser ≠ AuthError.clientOnly :=
  ⟨rfl, fun h => AuthError.noConfusion h⟩

/-- C6 amended: for every mode, password, stored hash and comparison
primitive, and every non-empty claimed username, the password hook on a
non-client connection fails with `ClientOnly`, regardless of password
correctness. -/
theorem userAuthPasswordHook_clientOnly (cmp : List Nat → String → Bool)
    (insecureMode : Bool) (password : String) (hash : List Nat) (claimed : String)
    (hclaimed : claimed.length ≠ 0) :
    UserAuthPasswordHook cmp insecureMode password hash claimed false
      = Except.error AuthError.clientOnly := by
  simp [UserAuthPasswordHook, hclaimed]

/-- C6 witness: a concrete non-empty user on a non-client connection. -/
theorem userAuthPasswordHook_clientOnly_witness :
    UserAuthPasswordHook (fun _ _ => true) false "pw" [1] "alice" false
      = Except.error AuthError.clientOnly :=
  userAuthPasswordHook_clientOnly (fun _ _ => true) false "pw" [1] "alice" (by decide)

/-- C7: in secure mode, for a non-empty claimed username other than `root`
on a client connection, the password hook fails with `InvalidCredentials`
exactly when the supplied password is empty or the external hash comparison
fails, and succeeds otherwise. -/
theorem userAuthPasswordHook_secure_credentials (cmp : List Nat → String → Bool)
    (password : String) (hash : List Nat) (claimed : String)
    (hne : claimed.length ≠ 0) (hroot : claimed ≠ RootUser) :
    (UserAuthPasswordHook cmp false password hash claimed true
        = Except.error AuthError.invalidCredentials
      ↔ (password.length = 0 ∨ cmp hash password = false)) ∧
    (UserAuthPasswordHook cmp false password hash claimed true = Except.ok ()
      ↔ (password.length ≠ 0 ∧ cmp hash password = true)) := by
  have hres : UserAuthPasswordHook cmp false password hash claimed true =
      (if password.length = 0 ∨ cmp hash password = false then
        Except.error AuthError.invalidCredentials
      else Except.ok ()) := by
    simp [UserAuthPasswordHook, hne, hroot]
  by_cases hpw : password.length = 0 <;> cases hcmp : cmp hash password <;>
    simp [hres, hpw, hcmp]

/-- C7 witness: user `alice` with a matching non-empty password succeeds. -/
theorem userAuthPasswordHook_secure_credentials_witness :
    (UserAuthPasswordHook (fun _ _ => true) false "pw" [1] "alice" true
        = Except.error AuthError.invalidCredentials
      ↔ ("pw".length = 0 ∨ true = false)) ∧
    (UserAuthPasswordHook (fun _ _ => true) false "pw" [1] "alice" true = Except.ok ()
      ↔ ("pw".length ≠ 0 ∧ true = true)) :=
  userAuthPasswordHook_secure_credentials (fun _ _ => true) "pw" [1] "alice"
    (by decide) (by decide)

/-- C2 counterexample: a verified certificate with an empty common name
resolves to the identity `""` (which is not `node`), yet invoking the built
decision function with claimedUsername equal to that identity on a client
connection fails with `MissingUser` instead of succeeding. -/
theorem userAuthCertHook_identity_iff_counterexample :
    GetCertificateUser (some ⟨[⟨""⟩], [[]]⟩) = Except.ok "" ∧
    "" ≠ NodeUser ∧
    (UserAuthCertHook false (some ⟨[⟨""⟩], [[]]⟩)).map (fun h => h "" true)
      = Except.ok (Except.error AuthError.missingUser) ∧
    (Except.ok (Except.error AuthError.missingUser)
        : Except AuthError (Except AuthError Unit)) ≠ Except.ok (Except.ok ()) :=
  ⟨rfl, by decide, rfl, fun h => Except.noConfusion (Except.ok.inj h)⟩

/-- C2 amended: for a secure-mode hook whose resolved certificate identity
`U` is non-empty and not `node`, the decision function succeeds if and only
if the claimed username equals `U` and the connection is a client
connection; in every other case it returns an error. -/
theorem userAuthCertHook_identity_iff (tls : Option ConnectionState) (U : String)
    (hU : GetCertificateUser tls = Except.ok U) (hne : U ≠ NodeUser)
    (hlen : U.length ≠ 0) (claimed : String) (client : Bool) :
    (UserAuthCertHook false tls).map (fun h => h claimed client)
      = Except.ok (Except.ok ()) ↔ (claimed = U ∧ client = true) := by
  rw [userAuthCertHook_secure_ok hU]
  simp only [Except.map, Except.ok.injEq]
  exact certHookFn_secure_ok_iff U claimed client hne hlen

/-- C2 witness: identity `alice`, claimed `alice`, client connection. -/
theorem userAuthCertHook_identity_iff_witness :
    ((UserAuthCertHook false (some ⟨[⟨"alice"⟩], [[⟨"alice"⟩]]⟩)).map
        (fun h => h "alice" true) = Except.ok (Except.ok ())
      ↔ ("alice" = "alice" ∧ true = true)) :=
  userAuthCertHook_identity_iff (some ⟨[⟨"alice"⟩], [[⟨"alice"⟩]]⟩) "alice" rfl
    (by decide) (by decide) "alice" true

/-- C3: for a secure-mode hook whose resolved certificate identity is
`node`, the decision function accepts every non-empty claimed username on a
client connection, and on a non-client connection accepts exactly the
claimed username `node`. -/
theorem userAuthCertHook_node_identity (tls : Option ConnectionState)
    (hU : GetCertificateUser tls = Except.ok NodeUser) (claimed : String) :
    (claimed.length ≠ 0 →
      (UserAuthCertHook false tls).map (fun h => h claimed true)
        = Except.ok (Except.ok ())) ∧
    ((UserAuthCertHook false tls).map (fun h => h claimed false)
        = Except.ok (Except.ok ()) ↔ claimed = NodeUser) := by
  rw [userAuthCertHook_secure_ok hU]
  simp only [Except.map, Except.ok.injEq]
  exact ⟨fun h => certHookFn_node_client claimed h, certHookFn_node_nonclient claimed⟩

/-- C3 witness: certificate identity `node`, claimed `alice`: success on a
client connection, rejection on a non-client connection. -/
theorem userAuthCertHook_node_identity_witness :
    (UserAuthCertHook false (some ⟨[⟨"node"⟩], [[⟨"node"⟩]]⟩)).map
        (fun h => h "alice" true) = Except.ok (Except.ok ()) ∧
    ((UserAuthCertHook false (some ⟨[⟨"node"⟩], [[⟨"node"⟩]]⟩)).map
        (fun h => h "alice" false) = Except.ok (Except.ok ())
      ↔ "alice" = NodeUser) :=
  ⟨(userAuthCertHook_node_identity (some ⟨[⟨"node"⟩], [[⟨"node"⟩]]⟩) rfl "alice").1
      (by decide),
   (userAuthCertHook_node_identity (some ⟨[⟨"node"⟩], [[⟨"node"⟩]]⟩) rfl "alice").2⟩

/-- C5: in secure mode the certificate-hook build fails exactly when
identity extraction fails, with the same error, and succeeds with the
closure over the extracted identity; in insecure mode the build always
succeeds, its result is independent of the handshake result, and the
closure never consults the identity. -/
theorem userAuthCertHook_build (tls tls2 : Option ConnectionState) :
    (∀ e, UserAuthCertHook false tls = Except.error e
      ↔ GetCertificateUser tls = Except.error e) ∧
    (∀ u, GetCertificateUser tls = Except.ok u →
      UserAuthCertHook false tls = Except.ok (certHookFn false u)) ∧
    UserAuthCertHook true tls = Except.ok (certHookFn true "") ∧
    UserAuthCertHook true tls = UserAuthCertHook true tls2 ∧
    (∀ (u u2 claimed : String) (client : Bool),
      certHookFn true u claimed client = certHookFn true u2 claimed client) := by
  refine ⟨?_, fun u hu => userAuthCertHook_secure_ok hu, rfl, rfl, ?_⟩
  · intro e
    constructor
    · intro h
      cases hg : GetCertificateUser tls with
      | error e2 =>
        rw [userAuthCertHook_secure_error hg] at h
        exact congrArg Except.error (Except.error.inj h)
      | ok u =>
        rw [userAuthCertHook_secure_ok hg] at h
        exact Except.noConfusion h
    · intro h
      exact userAuthCertHook_secure_error h
  · intro u u2 claimed client
    rfl

/-- C5 witness: concrete instances of each conjunct. -/
theorem userAuthCertHook_build_witness :
    (UserAuthCertHook false none = Except.error AuthError.noTLS
      ↔ GetCertificateUser none = Except.error AuthError.noTLS) ∧
    UserAuthCertHook false (some ⟨[⟨"alice"⟩], [[⟨"alice"⟩]]⟩)
      = Except.ok (certHookFn false "alice") ∧
    UserAuthCertHook true none = Except.ok (certHookFn true "") ∧
    UserAuthCertHook true none = UserAuthCertHook true (some ⟨[], []⟩) ∧
    certHookFn true "a" "alice" true = certHookFn true "b" "alice" true :=
  ⟨(userAuthCertHook_build none (some ⟨[], []⟩)).1 AuthError.noTLS,
   (userAuthCertHook_build (some ⟨[⟨"alice"⟩], [[⟨"alice"⟩]]⟩) none).2.1 "alice" rfl,
   (userAuthCertHook_build none (some ⟨[], []⟩)).2.2.1,
   (userAuthCertHook_build none (some ⟨[], []⟩)).2.2.2.1,
   (userAuthCertHook_build none none).2.2.2.2 "a" "b" "alice" true⟩

/-- C8: `ProtoAuthHook` fails at build time exactly when `UserAuthCertHook`
does, with the same error; the returned function rejects requests without a
claimed-username capability with `UnsupportedRequestType`, succeeds exactly
when the underlying certificate hook succeeds on the extracted username,
and re-wraps any underlying failure with the offending request, preserving
the inner error. -/
theorem protoAuthHook_adapter (mode : Bool) (tls : Option ConnectionState) :
    (∀ e, ProtoAuthHook mode tls = Except.error e
      ↔ UserAuthCertHook mode tls = Except.error e) ∧
    (∀ hook : UserAuthHook, UserAuthCertHook mode tls = Except.ok hook →
      ProtoAuthHook mode tls = Except.ok (protoHookFn hook) ∧
      (∀ (req : ProtoMessage) (client : Bool), getRequestUser req = none →
        protoHookFn hook req client = Except.error AuthError.unsupportedRequestType) ∧
      (∀ (req : ProtoMessage) (u : String) (client : Bool), getRequestUser req = some u →
        ((protoHookFn hook req client = Except.ok () ↔ hook u client = Except.ok ()) ∧
         ∀ e, hook u client = Except.error e →
           protoHookFn hook req client
             = Except.error (AuthError.requestError e req)))) := by
  constructor
  · intro e
    unfold ProtoAuthHook
    cases hc : UserAuthCertHook mode tls with
    | error e2 => simp
    | ok hook => simp
  · intro hook hc
    refine ⟨?_, ?_, ?_⟩
    · unfold ProtoAuthHook
      rw [hc]
    · intro req client hreq
      unfold protoHookFn
      rw [hreq]
    · intro req u client hreq
      constructor
      · unfold protoHookFn
        rw [hreq]
        cases hh : hook u client with
        | error e => simp [hh]
        | ok v => cases v; simp [hh]
      · intro e he
        unfold protoHookFn
        rw [hreq]
        simp [he]

/-- C8 witness: concrete instances of build parity, the unsupported-request
rejection, delegation, and error re-wrapping. -/
theorem protoAuthHook_adapter_witness :
    (ProtoAuthHook true none = Except.error AuthError.noTLS
      ↔ UserAuthCertHook true none = Except.error AuthError.noTLS) ∧
    ProtoAuthHook true none = Except.ok (protoHookFn (certHookFn true "")) ∧
    protoHookFn (certHookFn true "") (ProtoMessage.other "req") true
      = Except.error AuthError.unsupportedRequestType ∧
    (protoHookFn (certHookFn true "") (ProtoMessage.withUser "alice") true = Except.ok ()
      ↔ certHookFn true "" "alice" true = Except.ok ()) ∧
    protoHookFn (certHookFn true "") (ProtoMessage.withUser "") true
      = Except.error (AuthError.requestError AuthError.missingUser
          (ProtoMessage.withUser "")) :=
  ⟨(protoAuthHook_adapter true none).1 AuthError.noTLS,
   ((protoAuthHook_adapter true none).2 (certHookFn true "") rfl).1,
   ((protoAuthHook_adapter true none).2 (certHookFn true "") rfl).2.1
     (ProtoMessage.other "req") true rfl,
   (((protoAuthHook_adapter true none).2 (certHookFn true "") rfl).2.2
     (ProtoMessage.withUser "alice") "alice" true rfl).1,
   (((protoAuthHook_adapter true none).2 (certHookFn true "") rfl).2.2
     (ProtoMessage.withUser "") "" true rfl).2 AuthError.missingUser rfl⟩

/-- C9: the decision functions built by the certificate and password
authorizers are deterministic: two invocations with identical arguments
yield identical outcomes (the closures capture only immutable values, and
the embedding is state-free). -/
theorem hooks_deterministic (mode : Bool) (tls : Option ConnectionState)
    (hook : UserAuthHook) (cmp : List Nat → String → Bool) (password : String)
    (hash : List Nat) (claimed : String) (client : Bool)
    (_hbuild : UserAuthCertHook mode tls = Except.ok hook) :
    hook claimed client = hook claimed client ∧
    UserAuthPasswordHook cmp mode password hash claimed client
      = UserAuthPasswordHook cmp mode password hash claimed client :=
  ⟨rfl, rfl⟩

/-- C9 witness: a concrete built hook and password hook. -/
theorem hooks_deterministic_witness :
    certHookFn true "" "alice" true = certHookFn true "" "alice" true ∧
    UserAuthPasswordHook (fun _ _ => true) true "pw" [1] "alice" true
      = UserAuthPasswordHook (fun _ _ => true) true "pw" [1] "alice" true :=
  hooks_deterministic true none (certHookFn true "") (fun _ _ => true) "pw" [1]
    "alice" true rfl

end CockroachSecurity
